import Mathlib

/-!
Shallow embedding of the libyuv-sys build script (src/sys/libyuv-sys/build.rs)
from the CrabbyAvif repository.

The build script is modelled as a pure function of
  * a BuildEnv capturing the compile-time and environment inputs
    (TARGET, OUT_DIR, CARGO_MANIFEST_DIR, the libyuv cargo feature,
    and the windows target_os configuration), and
  * a World capturing the external effects the script consults
    (filesystem existence checks, the pkg-config registry probe, the
    bindgen/clang header parse, and the output-file write).

Emitted cargo directives are collected into a list.  Rust panics
(unwrap/expect on the failure side) are modelled as a distinct
Outcome.panicked terminal, separate from the Err(String) return path.
Path joins are modelled with a forward-slash separator; the host separator
choice does not affect any property proved below.
-/

deriving instance DecidableEq for Except

/-- Rust char::is_whitespace, approximated by Lean Char.isWhitespace. -/
def rsIsWhitespace (c : Char) : Bool := c.isWhitespace

/-- Does the second list start with the first? (helper for substring search) -/
def chLeads : List Char → List Char → Bool
  | [], _ => true
  | _ :: _, [] => false
  | a :: as, b :: bs => a = b && chLeads as bs

/-- Does pat occur as a contiguous infix of s? -/
def chOccurs (pat : List Char) : List Char → Bool
  | [] => chLeads pat []
  | c :: rest => chLeads pat (c :: rest) || chOccurs pat rest

/-- Model of Rust str::contains with a string pattern. -/
def strContains (s pat : String) : Bool := chOccurs pat.data s.data

/-- Model of Rust Path::join (the separator choice is irrelevant here). -/
def pathJoin (a b : String) : String := a ++ "/" ++ b

/-- Model of Rust str::split_whitespace on an explicit character list:
whitespace-separated maximal runs, empty tokens discarded. -/
def splitWsChars : List Char → List Char → List String
  | [], acc => if acc.isEmpty then [] else [String.mk acc.reverse]
  | c :: rest, acc =>
    if rsIsWhitespace c then
      (if acc.isEmpty then [] else [String.mk acc.reverse]) ++ splitWsChars rest []
    else
      splitWsChars rest (c :: acc)

/-- Model of Rust split_whitespace collected into a vector of tokens. -/
def splitWhitespace (s : String) : List String := splitWsChars s.data []

/-- A cargo directive or diagnostic line printed by the build script. -/
inductive Directive where
  | rerunIfChanged : String → Directive
  | linkLib : String → Directive
  | linkSearch : String → Directive
  | warning : String → Directive
deriving DecidableEq

/-- Recognizer for cargo rustc-link-lib directives. -/
def Directive.isLinkLib : Directive → Bool
  | .linkLib _ => true
  | _ => false

/-- Recognizer for cargo rustc-link-search directives. -/
def Directive.isLinkSearch : Directive → Bool
  | .linkSearch _ => true
  | _ => false

/-- Recognizer for the three Windows runtime dynamic-link directives
(rustc-link-lib with dylib=msvcrt, dylib=mingw32 or dylib=gcc). -/
def Directive.isWinRuntime (d : Directive) : Bool :=
  d == .linkLib "dylib=msvcrt" || d == .linkLib "dylib=mingw32" || d == .linkLib "dylib=gcc"

/-- Result of a successful pkg-config probe: the library names, link search
paths and include paths the registry reports.  An include path is given as
the result of Path::to_str — none models a path that is not valid UTF-8
(display-only link paths are kept as plain strings). -/
structure PkgLibrary where
  libs : List String
  link_paths : List String
  include_paths : List (Option String)
deriving DecidableEq

/-- Compile-time and environment inputs of the build script. -/
structure BuildEnv where
  target : Option String
  out_dir : Option String
  cargo_manifest_dir : String
  feature_libyuv : Bool
  target_os_windows : Bool
deriving DecidableEq

/-- Configuration handed to the bindgen builder before generation runs. -/
structure BindgenConfig where
  header : String
  clangArgs : List String
  layout_tests : Bool
  generate_comments : Bool
  allowlist : List String
deriving DecidableEq

/-- External effects consulted by the build script, given as deterministic
oracles: filesystem existence, pkg-config probe, the clang parse of the
header reachable through a given configuration (returning the symbol names
it declares, or the raw parser error), and the output file write. -/
structure World where
  file_exists : String → Bool
  pkg_probe : String → Option PkgLibrary
  parse_header : BindgenConfig → Except String (List String)
  write_file : String → List String → Except String Unit

/-- Terminal state of a run: success, Err(msg), or a Rust panic. -/
inductive Outcome where
  | ok : Outcome
  | err : String → Outcome
  | panicked : String → Outcome
deriving DecidableEq

/-- Observable result of one invocation of the build script: the printed
cargo lines, the files written (path and generated declaration names), the
configuration handed to the binding generator (none if never reached), and
the terminal outcome. -/
structure RunResult where
  lines : List Directive
  written : List (String × List String)
  bindgen_cfg : Option BindgenConfig
  outcome : Outcome
deriving DecidableEq

/-- Error text of the unsupported-android-architecture failure (build.rs:44-46). -/
def unknownArchMsg : String :=
  "Unknown target_arch for android. Must be one of x86, x86_64, arm, aarch64."

/-- Deferred guidance recorded on the Unresolved path (build.rs:99-103). -/
def customErrorMsg : String :=
  "libyuv binaries could not be found locally or with pkg-config. Disable the libyuv feature, install the system library libyuv-dev, or build the dependency locally by running libyuv.cmd from sys/libyuv-sys."

/-- Panic message for the unwrap of env::var(TARGET) on an unset variable. -/
def targetUnsetPanic : String :=
  "called Result::unwrap() on an Err value: NotPresent"

/-- Panic message for the expect of env::var(OUT_DIR) on an unset variable. -/
def outDirUnsetPanic : String := "OUT_DIR not set"

/-- Panic message for the unwrap of a non-UTF-8 Path::to_str. -/
def noneUnwrapPanic : String :=
  "called Option::unwrap() on a None value"

/-- Error text for the spec-modelled generation failure when an allow-listed
name is missing from the parsed header. -/
def allowlistMissingMsg : String :=
  "allow-listed item not found in the parsed header"

/-- Target Resolver (build.rs:34-50): map the TARGET triple to the prebuilt
artifact directory, testing android architecture substrings in source order. -/
def resolveBuildDir (build_target : String) : Except String String :=
  if strContains build_target "android" then
    if strContains build_target "x86_64" then .ok "build.android/x86_64"
    else if strContains build_target "x86" then .ok "build.android/x86"
    else if strContains build_target "aarch64" then .ok "build.android/arm64-v8a"
    else if strContains build_target "arm" then .ok "build.android/armeabi-v7a"
    else .error unknownArchMsg
  else .ok "build"

/-- Vendored library directory, CARGO_MANIFEST_DIR joined with libyuv (build.rs:53). -/
def libraryDir (env : BuildEnv) : String := pathJoin env.cargo_manifest_dir "libyuv"

/-- Per-target object directory under the vendored tree (build.rs:54). -/
def objectDir (env : BuildEnv) (build_dir : String) : String :=
  pathJoin (libraryDir env) build_dir

/-- Expected local static library file (build.rs:55). -/
def libraryFilePath (env : BuildEnv) (build_dir : String) : String :=
  pathJoin (objectDir env build_dir) "libyuv.a"

/-- Tagged artifact source following the data model of the spec. -/
inductive ArtifactLocation where
  | localStaticLibrary : String → ArtifactLocation
  | systemPackage : List String → List String → List (Option String) → ArtifactLocation
  | unresolved : ArtifactLocation
deriving DecidableEq

/-- Artifact Locator (build.rs:58, 82, 98): local file existence first, then
the pkg-config probe of the name yuv, else unresolved. -/
def locateArtifact (w : World) (library_file : String) : ArtifactLocation :=
  if w.file_exists library_file then .localStaticLibrary library_file
  else
    match w.pkg_probe "yuv" with
    | some lib => .systemPackage lib.libs lib.link_paths lib.include_paths
    | none => .unresolved

/-- Include-string composition of the pkg-config branch (build.rs:90-94):
push -I then the path for each include path, with no separator between the
flags; to_str() yields none on a non-UTF-8 path, which the code unwraps
(a panic, modelled as none here). -/
def includeStrOfPkg : List (Option String) → Option String
  | [] => some ""
  | none :: _ => none
  | some p :: rest =>
    match includeStrOfPkg rest with
    | none => none
    | some r => some ("-I" ++ p ++ r)

/-- The same composition on already-decoded paths, for stating properties. -/
def includeFlags (paths : List String) : String :=
  paths.foldr (fun p acc => "-I" ++ p ++ acc) ""

/-- Include string of the local-library branch (build.rs:71-72): the
normalized library dir and its include subdirectory, space separated. -/
def localIncludesStr (env : BuildEnv) : String :=
  "-I" ++ ((libraryDir env).replace "\\" "/") ++ " -I" ++ ((libraryDir env).replace "\\" "/") ++ "/include"

/-- Fixed allow-list passed to bindgen (build.rs:134-220). -/
def allowlist_items : List String :=
  ["ABGRToI420", "ABGRToJ400", "ABGRToJ420", "ABGRToJ422", "AR30ToAB30",
   "ARGBAttenuate", "ARGBToABGR", "ARGBToI400", "ARGBToI420", "ARGBToI422",
   "ARGBToI444", "ARGBToJ400", "ARGBToJ420", "ARGBToJ422", "ARGBUnattenuate",
   "BGRAToI420", "Convert16To8Plane", "FilterMode", "FilterMode_kFilterBilinear",
   "FilterMode_kFilterBox", "FilterMode_kFilterNone", "HalfFloatPlane",
   "I010AlphaToARGBMatrix", "I010AlphaToARGBMatrixFilter", "I010ToAR30Matrix",
   "I010ToARGBMatrix", "I010ToARGBMatrixFilter", "I012ToARGBMatrix",
   "I210AlphaToARGBMatrix", "I210AlphaToARGBMatrixFilter", "I210ToARGBMatrix",
   "I210ToARGBMatrixFilter", "I400ToARGBMatrix", "I410AlphaToARGBMatrix",
   "I410ToARGBMatrix", "I420AlphaToARGBMatrix", "I420AlphaToARGBMatrixFilter",
   "I420ToARGBMatrix", "I420ToARGBMatrixFilter", "I420ToRGB24Matrix",
   "I420ToRGB24MatrixFilter", "I420ToRGB565Matrix", "I420ToRGBAMatrix",
   "I422AlphaToARGBMatrix", "I422AlphaToARGBMatrixFilter", "I422ToARGBMatrix",
   "I422ToARGBMatrixFilter", "I422ToRGB24MatrixFilter", "I422ToRGB565Matrix",
   "I422ToRGBAMatrix", "I444AlphaToARGBMatrix", "I444ToARGBMatrix",
   "I444ToRGB24Matrix", "LIBYUV_VERSION", "NV12Scale", "NV12ToARGBMatrix",
   "NV12ToRGB565Matrix", "NV21ToARGBMatrix", "NV21ToNV12", "P010ToAR30Matrix",
   "P010ToARGBMatrix", "P010ToI010", "RAWToI420", "RAWToJ400", "RAWToJ420",
   "RGB24ToI420", "RGB24ToJ400", "RGB24ToJ420", "RGBAToI420", "RGBAToJ400",
   "ScalePlane", "ScalePlane_12", "YuvConstants", "kYuv2020Constants",
   "kYuvF709Constants", "kYuvH709Constants", "kYuvI601Constants",
   "kYuvJPEGConstants", "kYuvV2020Constants", "kYvu2020Constants",
   "kYvuF709Constants", "kYvuH709Constants", "kYvuI601Constants",
   "kYvuJPEGConstants", "kYvuV2020Constants"]

/-- Modelled from the spec: the generation step of bindgen itself is external
to the sources under src/ (only its configuration is in build.rs).  Per spec
section 4.5 and the data model, generation restricts the declarations
reachable from the parsed header to exactly the allow-listed names, and
fails if an allow-listed name does not exist in the parsed header; a parse
failure surfaces the raw parser error. -/
def generateBindings (parsed : Except String (List String)) (allow : List String) :
    Except String (List String) :=
  match parsed with
  | .error e => .error e
  | .ok decls =>
    if allow.all (fun a => decls.contains a) then
      .ok (decls.filter (fun d => allow.contains d))
    else .error allowlistMissingMsg

/-- Rust Display of a bool. -/
def boolStr (b : Bool) : String := if b then "true" else "false"

/-- Debug formatting of a path or string, escape handling elided. -/
def quoteDebug (s : String) : String := "\"" ++ s ++ "\""

/-- Debug formatting of a list of strings, escape handling elided. -/
def listDebug (xs : List String) : String :=
  "[" ++ String.intercalate ", " (xs.map quoteDebug) ++ "]"

/-- The bindgen configuration built in build.rs:120-131 from the composed
include string: header path, whitespace-split include tokens as separate
clang arguments, no layout tests, no comments, the fixed allow-list. -/
def cfgOf (env : BuildEnv) (extra_includes : String) : BindgenConfig :=
  { header := pathJoin env.cargo_manifest_dir "wrapper.h",
    clangArgs := splitWhitespace extra_includes,
    layout_tests := false,
    generate_comments := false,
    allowlist := allowlist_items }

/-- Binding-generation phase of the run (build.rs:110-234): read OUT_DIR
(expect means panic if unset), print the diagnostic warnings, split the
include string, configure and run the generator, surface the deferred
custom error on failure when one was recorded, and write the output file. -/
def finishRun (env : BuildEnv) (w : World) (lines : List Directive)
    (library_file : String) (extra_includes : String)
    (custom_error : Option String) : RunResult :=
  match env.out_dir with
  | none => { lines := lines, written := [], bindgen_cfg := none,
              outcome := .panicked outDirUnsetPanic }
  | some outdir =>
    let outfile := pathJoin outdir "libyuv_bindgen.rs"
    let lines := lines ++
      [.warning ("Library file exists: " ++ boolStr (w.file_exists library_file)),
       .warning ("Extra includes: " ++ extra_includes),
       .warning ("Header file: " ++ quoteDebug (pathJoin env.cargo_manifest_dir "wrapper.h"))]
    let cfg := cfgOf env extra_includes
    let lines := lines ++ [.warning ("Using separate clang args: " ++ listDebug cfg.clangArgs)]
    match generateBindings (w.parse_header cfg) allowlist_items with
    | .error raw =>
      { lines := lines, written := [], bindgen_cfg := some cfg,
        outcome := .err (match custom_error with | some c => c | none => raw) }
    | .ok decls =>
      match w.write_file outfile decls with
      | .error e =>
        { lines := lines, written := [], bindgen_cfg := some cfg, outcome := .err e }
      | .ok _ =>
        { lines := lines, written := [(outfile, decls)], bindgen_cfg := some cfg,
          outcome := .ok }

/-- Whole-run embedding of fn main (build.rs:26-235). -/
def mainRun (env : BuildEnv) (w : World) : RunResult :=
  let l0 : List Directive := [.rerunIfChanged "build.rs"]
  if env.feature_libyuv = false then
    { lines := l0, written := [], bindgen_cfg := none, outcome := .ok }
  else
    match env.target with
    | none =>
      { lines := l0, written := [], bindgen_cfg := none,
        outcome := .panicked targetUnsetPanic }
    | some build_target =>
      match resolveBuildDir build_target with
      | .error e =>
        { lines := l0, written := [], bindgen_cfg := none, outcome := .err e }
      | .ok build_dir =>
        let abs_library_dir := libraryDir env
        let abs_object_dir := objectDir env build_dir
        let library_file := libraryFilePath env build_dir
        match locateArtifact w library_file with
        | .localStaticLibrary _ =>
          let winLibs : List Directive :=
            if env.target_os_windows then
              [.linkLib "dylib=msvcrt", .linkLib "dylib=mingw32", .linkLib "dylib=gcc"]
            else []
          let normalized_path := abs_library_dir.replace "\\" "/"
          let extra := localIncludesStr env
          let l1 := l0 ++ [.linkLib "static=yuv", .linkSearch abs_object_dir] ++ winLibs ++
            [.warning ("abs_library_dir: " ++ abs_library_dir),
             .warning ("Normalized path: " ++ normalized_path),
             .warning ("Formatted extra_includes_str: " ++ extra)]
          finishRun env w l1 library_file extra none
        | .systemPackage libs link_paths include_paths =>
          let l1 := l0 ++ libs.map Directive.linkLib ++ link_paths.map Directive.linkSearch
          match includeStrOfPkg include_paths with
          | none =>
            { lines := l1, written := [], bindgen_cfg := none,
              outcome := .panicked noneUnwrapPanic }
          | some inc => finishRun env w l1 library_file inc none
        | .unresolved =>
          finishRun env w (l0 ++ [.linkLib "yuv"]) library_file "" (some customErrorMsg)

/-- Sample environment: a generic linux target with the feature enabled. -/
def envLinux : BuildEnv :=
  { target := some "x86_64-unknown-linux-gnu", out_dir := some "/out",
    cargo_manifest_dir := "/proj", feature_libyuv := true, target_os_windows := false }

/-- Sample environment: an android target with an unsupported architecture. -/
def envAndroidBad : BuildEnv :=
  { target := some "mips64-linux-android", out_dir := some "/out",
    cargo_manifest_dir := "/proj", feature_libyuv := true, target_os_windows := false }

/-- Sample environment: the linux target built on the windows platform. -/
def envWin : BuildEnv := { envLinux with target_os_windows := true }

/-- Sample environment with the TARGET variable unset. -/
def envNoTarget : BuildEnv := { envLinux with target := none }

/-- Sample environment with the OUT_DIR variable unset. -/
def envNoOut : BuildEnv := { envLinux with out_dir := none }

/-- Sample pkg-config answer with one library, link path and include path. -/
def sampleLib : PkgLibrary :=
  { libs := ["yuv"], link_paths := ["/usr/lib"], include_paths := [some "/usr/include"] }

/-- Sample pkg-config answer reporting two include paths. -/
def libTwoIncludes : PkgLibrary :=
  { libs := ["yuv"], link_paths := [], include_paths := [some "/a", some "/b"] }

/-- Sample pkg-config answer reporting a non-UTF-8 include path. -/
def libBadUtf8 : PkgLibrary :=
  { libs := ["yuv"], link_paths := [], include_paths := [none] }

/-- Sample world without a local library or system package; the header parse
fails as it would with no include path to the vendored headers. -/
def worldAbsent : World :=
  { file_exists := fun _ => false, pkg_probe := fun _ => none,
    parse_header := fun _ => .error "fatal: wrapper.h not found",
    write_file := fun _ _ => .ok () }

/-- Sample world where the local static library exists and parsing succeeds. -/
def worldLocal : World :=
  { file_exists := fun _ => true, pkg_probe := fun _ => none,
    parse_header := fun _ => .ok allowlist_items,
    write_file := fun _ _ => .ok () }

/-- Sample world with a local library whose header parse fails. -/
def worldLocalBadParse : World :=
  { worldLocal with parse_header := fun _ => .error "clang diagnostic: fatal error" }

/-- Sample world resolving through the system package registry. -/
def worldSystem : World :=
  { file_exists := fun _ => false, pkg_probe := fun _ => some sampleLib,
    parse_header := fun _ => .ok allowlist_items, write_file := fun _ _ => .ok () }

/-- Sample world whose registry reports two include paths. -/
def worldTwoIncludes : World :=
  { worldAbsent with pkg_probe := fun _ => some libTwoIncludes }

/-- Sample world whose registry reports a non-UTF-8 include path. -/
def worldBadUtf8 : World :=
  { worldAbsent with pkg_probe := fun _ => some libBadUtf8 }

/-- Sample registry oracle that always reports sampleLib. -/
def probeSample : String → Option PkgLibrary := fun _ => some sampleLib

/-- Restriction of the allow-list against itself, the generation output when
the parsed header declares exactly the allow-listed names. -/
def allowlistSelf : List String :=
  allowlist_items.filter (fun d => allowlist_items.contains d)

theorem filter_map_of_true (f : String → Directive) (p : Directive → Bool)
    (h : ∀ s, p (f s) = true) (l : List String) :
    (l.map f).filter p = l.map f := by
  induction l with
  | nil => rfl
  | cons a l ih => simp [h, ih]

theorem filter_map_of_false (f : String → Directive) (p : Directive → Bool)
    (h : ∀ s, p (f s) = false) (l : List String) :
    (l.map f).filter p = [] := by
  induction l with
  | nil => rfl
  | cons a l ih => simp [h, ih]

theorem isWinRuntime_warning (s : String) : Directive.isWinRuntime (.warning s) = false := rfl

theorem isWinRuntime_search (s : String) : Directive.isWinRuntime (.linkSearch s) = false := rfl

theorem isWinRuntime_rerun (s : String) :
    Directive.isWinRuntime (.rerunIfChanged s) = false := rfl

theorem isWinRuntime_static : Directive.isWinRuntime (.linkLib "static=yuv") = false := rfl

theorem finishRun_filter (env : BuildEnv) (w : World) (lines : List Directive)
    (lf extra : String) (ce : Option String) (p : Directive → Bool)
    (hp : ∀ s, p (.warning s) = false) :
    ((finishRun env w lines lf extra ce).lines).filter p = lines.filter p := by
  unfold finishRun
  cases env.out_dir with
  | none => rfl
  | some o =>
    simp only []
    cases hg : generateBindings (w.parse_header (cfgOf env extra)) allowlist_items with
    | error raw => simp [hg, List.filter_append, hp]
    | ok decls =>
      cases hw : w.write_file (pathJoin o "libyuv_bindgen.rs") decls with
      | error e => simp [hg, hw, List.filter_append, hp]
      | ok u => simp [hg, hw, List.filter_append, hp]

theorem finishRun_mem (env : BuildEnv) (w : World) (lines : List Directive)
    (lf extra : String) (ce : Option String) (d : Directive) (hd : d ∈ lines) :
    d ∈ (finishRun env w lines lf extra ce).lines := by
  unfold finishRun
  cases env.out_dir with
  | none => exact hd
  | some o =>
    simp only []
    cases hg : generateBindings (w.parse_header (cfgOf env extra)) allowlist_items with
    | error raw => simp [hg, hd]
    | ok decls =>
      cases hw : w.write_file (pathJoin o "libyuv_bindgen.rs") decls with
      | error e => simp [hg, hw, hd]
      | ok u => simp [hg, hw, hd]

theorem finishRun_cfg (env : BuildEnv) (w : World) (lines : List Directive)
    (lf extra o : String) (ce : Option String) (ho : env.out_dir = some o) :
    (finishRun env w lines lf extra ce).bindgen_cfg = some (cfgOf env extra) := by
  unfold finishRun
  rw [ho]
  simp only []
  cases hg : generateBindings (w.parse_header (cfgOf env extra)) allowlist_items with
  | error raw => simp [hg]
  | ok decls =>
    cases hw : w.write_file (pathJoin o "libyuv_bindgen.rs") decls with
    | error e => simp [hg, hw]
    | ok u => simp [hg, hw]

theorem includeStrOfPkg_of_none_mem {l : List (Option String)} (h : none ∈ l) :
    includeStrOfPkg l = none := by
  induction l with
  | nil => cases h
  | cons a l ih =>
    cases a with
    | none => rfl
    | some p =>
      have h' : none ∈ l := by
        rcases List.mem_cons.mp h with h0 | h1
        · exact absurd h0 (by simp)
        · exact h1
      simp [includeStrOfPkg, ih h']

theorem includeStrOfPkg_map_some (ps : List String) :
    includeStrOfPkg (ps.map some) = some (includeFlags ps) := by
  induction ps with
  | nil => rfl
  | cons p ps ih => simp [includeStrOfPkg, includeFlags, ih]

theorem splitWsChars_all_non_ws (l : List Char) (h : ∀ c ∈ l, rsIsWhitespace c = false) :
    ∀ acc : List Char, splitWsChars l acc =
      if acc.reverse ++ l = [] then [] else [String.mk (acc.reverse ++ l)] := by
  induction l with
  | nil =>
    intro acc
    by_cases ha : acc = []
    · simp [splitWsChars, ha]
    · simp [splitWsChars, ha, List.isEmpty_iff]
  | cons c rest ih =>
    intro acc
    have hc : rsIsWhitespace c = false := h c (by simp)
    have hrest : ∀ x ∈ rest, rsIsWhitespace x = false := fun x hx => h x (by simp [hx])
    have hstep : splitWsChars (c :: rest) acc = splitWsChars rest (c :: acc) := by
      simp [splitWsChars, hc]
    rw [hstep, ih hrest (c :: acc), if_neg (by simp), if_neg (by simp)]
    simp

theorem splitWhitespace_single (s : String) (hne : s.data ≠ [])
    (h : ∀ c ∈ s.data, rsIsWhitespace c = false) :
    splitWhitespace s = [s] := by
  cases s with
  | mk l =>
    unfold splitWhitespace
    rw [splitWsChars_all_non_ws l h []]
    simp at hne
    simp [hne]

theorem includeFlags_non_ws (ps : List String)
    (h : ∀ p ∈ ps, ∀ c ∈ p.data, rsIsWhitespace c = false) :
    ∀ c ∈ (includeFlags ps).data, rsIsWhitespace c = false := by
  induction ps with
  | nil => intro c hc; cases hc
  | cons p ps ih =>
    intro c hc
    have hdata : (includeFlags (p :: ps)).data =
        '-' :: 'I' :: (p.data ++ (includeFlags ps).data) := rfl
    rw [hdata] at hc
    rcases List.mem_cons.mp hc with hc | hc
    · subst hc; decide
    rcases List.mem_cons.mp hc with hc | hc
    · subst hc; decide
    rcases List.mem_append.mp hc with hc | hc
    · exact h p (by simp) c hc
    · exact ih (fun q hq => h q (by simp [hq])) c hc

theorem includeFlags_cons_ne_nil (p : String) (ps : List String) :
    (includeFlags (p :: ps)).data ≠ [] := by
  have hdata : (includeFlags (p :: ps)).data =
      '-' :: 'I' :: (p.data ++ (includeFlags ps).data) := rfl
  rw [hdata]
  simp

/-- Claim C2: for every build target containing android, the Target Resolver
maps the four architecture substrings x86_64, x86, aarch64, arm — tested in
that order, first match winning — to four pairwise distinct fixed
subdirectory names. -/
theorem android_arch_dir_map (t : String) (ha : strContains t "android" = true) :
    (strContains t "x86_64" = true → resolveBuildDir t = .ok "build.android/x86_64") ∧
    (strContains t "x86_64" = false → strContains t "x86" = true →
      resolveBuildDir t = .ok "build.android/x86") ∧
    (strContains t "x86_64" = false → strContains t "x86" = false →
      strContains t "aarch64" = true → resolveBuildDir t = .ok "build.android/arm64-v8a") ∧
    (strContains t "x86_64" = false → strContains t "x86" = false →
      strContains t "aarch64" = false → strContains t "arm" = true →
      resolveBuildDir t = .ok "build.android/armeabi-v7a") ∧
    ["build.android/x86_64", "build.android/x86", "build.android/arm64-v8a",
      "build.android/armeabi-v7a"].Pairwise (fun a b => a ≠ b) := by
  refine ⟨?_, ?_, ?_, ?_, ?_⟩
  · intro h1; simp [resolveBuildDir, ha, h1]
  · intro h1 h2; simp [resolveBuildDir, ha, h1, h2]
  · intro h1 h2 h3; simp [resolveBuildDir, ha, h1, h2, h3]
  · intro h1 h2 h3 h4; simp [resolveBuildDir, ha, h1, h2, h3, h4]
  · decide

/-- Witness for C2 at the 64-bit ARM android triple. -/
theorem android_arch_dir_map_witness :
    resolveBuildDir "aarch64-linux-android" = .ok "build.android/arm64-v8a" :=
  (android_arch_dir_map "aarch64-linux-android" rfl).2.2.1 rfl rfl rfl

/-- Claim C3: an android target containing none of the four known
architecture substrings makes the build script return an error immediately:
the run consists of only the rerun-if-changed line, writes nothing, never
configures the binding generator, and is independent of the filesystem,
registry and parser oracles. -/
theorem unknown_android_arch_aborts (env : BuildEnv) (w w' : World) (t : String)
    (hf : env.feature_libyuv = true) (ht : env.target = some t)
    (ha : strContains t "android" = true)
    (h1 : strContains t "x86_64" = false) (h2 : strContains t "x86" = false)
    (h3 : strContains t "aarch64" = false) (h4 : strContains t "arm" = false) :
    mainRun env w = { lines := [.rerunIfChanged "build.rs"], written := [],
                      bindgen_cfg := none, outcome := .err unknownArchMsg } ∧
    mainRun env w = mainRun env w' := by
  have hb : resolveBuildDir t = .error unknownArchMsg := by
    simp [resolveBuildDir, ha, h1, h2, h3, h4]
  constructor <;> simp [mainRun, hf, ht, hb]

/-- Witness for C3 at a mips64 android triple. -/
theorem unknown_android_arch_aborts_witness :
    mainRun envAndroidBad worldAbsent =
      { lines := [.rerunIfChanged "build.rs"], written := [], bindgen_cfg := none,
        outcome := .err unknownArchMsg } ∧
    mainRun envAndroidBad worldAbsent = mainRun envAndroidBad worldLocal :=
  unknown_android_arch_aborts envAndroidBad worldAbsent worldLocal
    "mips64-linux-android" rfl rfl rfl rfl rfl rfl rfl

/-- Claim C1: when the local static-library file exists at the resolved
path, the Artifact Locator selects LocalStaticLibrary with that path, and
the whole run is independent of the system package registry oracle — the
registry is never used, whatever it would report. -/
theorem local_library_priority (env : BuildEnv) (w : World) (t bd : String)
    (q : String → Option PkgLibrary)
    (hf : env.feature_libyuv = true) (ht : env.target = some t)
    (hb : resolveBuildDir t = .ok bd)
    (he : w.file_exists (libraryFilePath env bd) = true) :
    locateArtifact w (libraryFilePath env bd) = .localStaticLibrary (libraryFilePath env bd) ∧
    mainRun env { w with pkg_probe := q } = mainRun env w := by
  constructor
  · simp [locateArtifact, he]
  · simp [mainRun, hf, ht, hb, locateArtifact, he, finishRun]

/-- Witness for C1: a local library present while the registry also reports
an installed system package. -/
theorem local_library_priority_witness :
    locateArtifact worldLocal (libraryFilePath envLinux "build") =
      .localStaticLibrary (libraryFilePath envLinux "build") ∧
    mainRun envLinux { worldLocal with pkg_probe := probeSample } =
      mainRun envLinux worldLocal :=
  local_library_priority envLinux worldLocal "x86_64-unknown-linux-gnu" "build"
    probeSample rfl rfl rfl rfl

/-- Claim C6: a SystemPackage resolution emits exactly one link-library
directive per registry-reported library name and exactly one search-path
directive per reported link path, both in registry order, and no others. -/
theorem system_package_directives (env : BuildEnv) (w : World) (t bd : String) (lib : PkgLibrary)
    (hf : env.feature_libyuv = true) (ht : env.target = some t)
    (hb : resolveBuildDir t = .ok bd)
    (he : w.file_exists (libraryFilePath env bd) = false)
    (hp : w.pkg_probe "yuv" = some lib) :
    (mainRun env w).lines.filter Directive.isLinkLib = lib.libs.map Directive.linkLib ∧
    (mainRun env w).lines.filter Directive.isLinkSearch = lib.link_paths.map Directive.linkSearch := by
  have hloc : locateArtifact w (libraryFilePath env bd) =
      .systemPackage lib.libs lib.link_paths lib.include_paths := by
    simp [locateArtifact, he, hp]
  cases hinc : includeStrOfPkg lib.include_paths with
  | none =>
    constructor <;>
      simp [mainRun, hf, ht, hb, hloc, hinc, List.filter_append,
        filter_map_of_true, filter_map_of_false, Directive.isLinkLib, Directive.isLinkSearch]
  | some inc =>
    have hm : mainRun env w = finishRun env w
        ([.rerunIfChanged "build.rs"] ++ lib.libs.map Directive.linkLib
          ++ lib.link_paths.map Directive.linkSearch)
        (libraryFilePath env bd) inc none := by
      simp [mainRun, hf, ht, hb, hloc, hinc]
    rw [hm]
    constructor <;>
      rw [finishRun_filter _ _ _ _ _ _ _ (fun s => rfl)] <;>
      simp [List.filter_append, filter_map_of_true, filter_map_of_false,
        Directive.isLinkLib, Directive.isLinkSearch]

/-- Witness for C6 with a registry answer of one library and one link path. -/
theorem system_package_directives_witness :
    (mainRun envLinux worldSystem).lines.filter Directive.isLinkLib =
      sampleLib.libs.map Directive.linkLib ∧
    (mainRun envLinux worldSystem).lines.filter Directive.isLinkSearch =
      sampleLib.link_paths.map Directive.linkSearch :=
  system_package_directives envLinux worldSystem "x86_64-unknown-linux-gnu" "build"
    sampleLib rfl rfl rfl rfl rfl

/-- Claim C8: with the local static library present, the run on the windows
platform emits exactly the three runtime dynamic-link directives (msvcrt,
mingw32, gcc) besides the static-link and search-path directives, and on a
non-windows platform emits none of the three. -/
theorem windows_runtime_directives (env : BuildEnv) (w : World) (t bd : String)
    (hf : env.feature_libyuv = true) (ht : env.target = some t)
    (hb : resolveBuildDir t = .ok bd)
    (he : w.file_exists (libraryFilePath env bd) = true) :
    (mainRun env w).lines.filter Directive.isWinRuntime =
      (if env.target_os_windows then
        [.linkLib "dylib=msvcrt", .linkLib "dylib=mingw32", .linkLib "dylib=gcc"] else []) ∧
    Directive.linkLib "static=yuv" ∈ (mainRun env w).lines ∧
    Directive.linkSearch (objectDir env bd) ∈ (mainRun env w).lines := by
  have hloc : locateArtifact w (libraryFilePath env bd) =
      .localStaticLibrary (libraryFilePath env bd) := by
    simp [locateArtifact, he]
  have hm : mainRun env w = finishRun env w
      ([.rerunIfChanged "build.rs"] ++ [.linkLib "static=yuv", .linkSearch (objectDir env bd)]
        ++ (if env.target_os_windows then
              [.linkLib "dylib=msvcrt", .linkLib "dylib=mingw32", .linkLib "dylib=gcc"] else [])
        ++ [.warning ("abs_library_dir: " ++ libraryDir env),
            .warning ("Normalized path: " ++ (libraryDir env).replace "\\" "/"),
            .warning ("Formatted extra_includes_str: " ++ localIncludesStr env)])
      (libraryFilePath env bd) (localIncludesStr env) none := by
    simp [mainRun, hf, ht, hb, hloc]
  refine ⟨?_, ?_, ?_⟩
  · rw [hm, finishRun_filter _ _ _ _ _ _ _ (fun s => rfl)]
    cases hwin : env.target_os_windows <;>
      simp [List.filter_append, isWinRuntime_warning, isWinRuntime_search,
        isWinRuntime_rerun, isWinRuntime_static, Directive.isWinRuntime]
  · rw [hm]; exact finishRun_mem _ _ _ _ _ _ _ (by simp)
  · rw [hm]; exact finishRun_mem _ _ _ _ _ _ _ (by simp)

/-- Witness for C8 on the windows platform with the local library present. -/
theorem windows_runtime_directives_witness :
    (mainRun envWin worldLocal).lines.filter Directive.isWinRuntime =
      (if envWin.target_os_windows then
        [.linkLib "dylib=msvcrt", .linkLib "dylib=mingw32", .linkLib "dylib=gcc"] else []) ∧
    Directive.linkLib "static=yuv" ∈ (mainRun envWin worldLocal).lines ∧
    Directive.linkSearch (objectDir envWin "build") ∈ (mainRun envWin worldLocal).lines :=
  windows_runtime_directives envWin worldLocal "x86_64-unknown-linux-gnu" "build"
    rfl rfl rfl rfl

/-- Claim C7: when binding generation fails, an Unresolved resolution
surfaces the deferred three-remedy guidance text in place of the raw parser
error, while a resolved local library or system package surfaces the raw
parser error itself. -/
theorem generation_error_surfacing (env : BuildEnv) (w : World) (t bd o : String)
    (hf : env.feature_libyuv = true) (ht : env.target = some t)
    (hb : resolveBuildDir t = .ok bd) (ho : env.out_dir = some o) :
    (w.file_exists (libraryFilePath env bd) = false → w.pkg_probe "yuv" = none →
      ∀ raw, generateBindings (w.parse_header (cfgOf env "")) allowlist_items = .error raw →
      (mainRun env w).outcome = .err customErrorMsg) ∧
    (w.file_exists (libraryFilePath env bd) = true →
      ∀ raw, generateBindings (w.parse_header (cfgOf env (localIncludesStr env)))
          allowlist_items = .error raw →
      (mainRun env w).outcome = .err raw) ∧
    (∀ lib inc, w.file_exists (libraryFilePath env bd) = false →
      w.pkg_probe "yuv" = some lib → includeStrOfPkg lib.include_paths = some inc →
      ∀ raw, generateBindings (w.parse_header (cfgOf env inc)) allowlist_items = .error raw →
      (mainRun env w).outcome = .err raw) := by
  refine ⟨?_, ?_, ?_⟩
  · intro he hp raw hg
    have hloc : locateArtifact w (libraryFilePath env bd) = .unresolved := by
      simp [locateArtifact, he, hp]
    simp [mainRun, hf, ht, hb, hloc, finishRun, ho, hg]
  · intro he raw hg
    have hloc : locateArtifact w (libraryFilePath env bd) =
        .localStaticLibrary (libraryFilePath env bd) := by
      simp [locateArtifact, he]
    simp [mainRun, hf, ht, hb, hloc, finishRun, ho, hg]
  · intro lib inc he hp hinc raw hg
    have hloc : locateArtifact w (libraryFilePath env bd) =
        .systemPackage lib.libs lib.link_paths lib.include_paths := by
      simp [locateArtifact, he, hp]
    simp [mainRun, hf, ht, hb, hloc, hinc, finishRun, ho, hg]

/-- Witness for C7: an unresolved run surfaces the custom guidance while a
resolved local run with a failing parse surfaces the raw clang error. -/
theorem generation_error_surfacing_witness :
    (mainRun envLinux worldAbsent).outcome = .err customErrorMsg ∧
    (mainRun envLinux worldLocalBadParse).outcome = .err "clang diagnostic: fatal error" :=
  ⟨(generation_error_surfacing envLinux worldAbsent "x86_64-unknown-linux-gnu" "build" "/out"
      rfl rfl rfl rfl).1 rfl rfl "fatal: wrapper.h not found" rfl,
   (generation_error_surfacing envLinux worldLocalBadParse "x86_64-unknown-linux-gnu" "build"
      "/out" rfl rfl rfl rfl).2.1 rfl "clang diagnostic: fatal error" rfl⟩

/-- Claim C9: the run is a deterministic function of its environment inputs
and of the answers of the on-disk and external oracles; two runs whose
oracles agree pointwise produce the same result, in particular byte-identical
written binding output. -/
theorem run_deterministic (env : BuildEnv) (w1 w2 : World)
    (hfe : ∀ p, w1.file_exists p = w2.file_exists p)
    (hpp : ∀ n, w1.pkg_probe n = w2.pkg_probe n)
    (hph : ∀ c, w1.parse_header c = w2.parse_header c)
    (hwf : ∀ p d, w1.write_file p d = w2.write_file p d) :
    mainRun env w1 = mainRun env w2 ∧
    (mainRun env w1).written = (mainRun env w2).written := by
  have hw : w1 = w2 := by
    cases w1; cases w2
    simp only [World.mk.injEq]
    exact ⟨funext hfe, funext hpp, funext hph, funext fun p => funext (hwf p)⟩
  rw [hw]
  exact ⟨rfl, rfl⟩

/-- Witness for C9 at a concrete system-package run. -/
theorem run_deterministic_witness :
    mainRun envLinux worldSystem = mainRun envLinux worldSystem ∧
    (mainRun envLinux worldSystem).written = (mainRun envLinux worldSystem).written :=
  run_deterministic envLinux worldSystem worldSystem
    (fun _ => rfl) (fun _ => rfl) (fun _ => rfl) (fun _ _ => rfl)

/-- Claim C10: the build script panics through unwrap or expect — instead of
returning the Err(String) used by its other failure paths — when TARGET is
unset, when OUT_DIR is unset, and when a registry-reported include path is
not valid UTF-8. -/
theorem panic_paths :
    (∀ env w, env.feature_libyuv = true → env.target = none →
      (mainRun env w).outcome = .panicked targetUnsetPanic) ∧
    (∀ env w t bd, env.feature_libyuv = true → env.target = some t →
      resolveBuildDir t = .ok bd → (w : World).file_exists (libraryFilePath env bd) = true →
      env.out_dir = none → (mainRun env w).outcome = .panicked outDirUnsetPanic) ∧
    (∀ env w t bd lib, env.feature_libyuv = true → env.target = some t →
      resolveBuildDir t = .ok bd → (w : World).file_exists (libraryFilePath env bd) = false →
      w.pkg_probe "yuv" = some lib → none ∈ lib.include_paths →
      (mainRun env w).outcome = .panicked noneUnwrapPanic) := by
  refine ⟨?_, ?_, ?_⟩
  · intro env w hf ht
    simp [mainRun, hf, ht]
  · intro env w t bd hf ht hb he ho
    have hloc : locateArtifact w (libraryFilePath env bd) =
        .localStaticLibrary (libraryFilePath env bd) := by
      simp [locateArtifact, he]
    simp [mainRun, hf, ht, hb, hloc, finishRun, ho]
  · intro env w t bd lib hf ht hb he hp hnone
    have hloc : locateArtifact w (libraryFilePath env bd) =
        .systemPackage lib.libs lib.link_paths lib.include_paths := by
      simp [locateArtifact, he, hp]
    simp [mainRun, hf, ht, hb, hloc, includeStrOfPkg_of_none_mem hnone]

/-- Witness for C10: concrete runs panic with TARGET unset, with OUT_DIR
unset, and with a non-UTF-8 registry include path. -/
theorem panic_paths_witness :
    (mainRun envNoTarget worldLocal).outcome = .panicked targetUnsetPanic ∧
    (mainRun envNoOut worldLocal).outcome = .panicked outDirUnsetPanic ∧
    (mainRun envLinux worldBadUtf8).outcome = .panicked noneUnwrapPanic :=
  ⟨panic_paths.1 envNoTarget worldLocal rfl rfl,
   panic_paths.2.1 envNoOut worldLocal "x86_64-unknown-linux-gnu" "build" rfl rfl rfl rfl rfl,
   panic_paths.2.2 envLinux worldBadUtf8 "x86_64-unknown-linux-gnu" "build" libBadUtf8
     rfl rfl rfl rfl rfl (by simp [libBadUtf8])⟩

/-- Counterexample to claim C5 as stated: with two whitespace-free registry
include paths /a and /b, the composed include string is -I/a-I/b with no
separator, so the re-split hands the parser the single merged token
-I/a-I/b rather than the two separate tokens -I/a and -I/b. -/
theorem pkg_include_args_counterexample :
    libTwoIncludes.include_paths = [some "/a", some "/b"] ∧
    (mainRun envLinux worldTwoIncludes).bindgen_cfg = some (cfgOf envLinux "-I/a-I/b") ∧
    (cfgOf envLinux "-I/a-I/b").clangArgs = ["-I/a-I/b"] ∧
    ["-I/a-I/b"] ≠ ["-I/a", "-I/b"] :=
  ⟨rfl, rfl, rfl, by decide⟩

/-- Claim C5 as amended: for a SystemPackage resolution whose registry
reports include paths p1..pn, each nonempty and free of whitespace, the
composed include string is the separator-free concatenation of the -Ipi
flags, and the compiler arguments handed to the header parser are exactly
the one token holding that whole concatenation (one argument per path only
in the single-path case). -/
theorem pkg_include_args_merged (env : BuildEnv) (w : World) (t bd o : String)
    (lib : PkgLibrary) (ps : List String)
    (hf : env.feature_libyuv = true) (ht : env.target = some t)
    (hb : resolveBuildDir t = .ok bd) (ho : env.out_dir = some o)
    (he : w.file_exists (libraryFilePath env bd) = false)
    (hp : w.pkg_probe "yuv" = some lib)
    (hps : lib.include_paths = ps.map some)
    (hne : ps ≠ [])
    (hgood : ∀ p ∈ ps, ∀ c ∈ p.data, rsIsWhitespace c = false) :
    includeStrOfPkg lib.include_paths = some (includeFlags ps) ∧
    (mainRun env w).bindgen_cfg = some (cfgOf env (includeFlags ps)) ∧
    (cfgOf env (includeFlags ps)).clangArgs = [includeFlags ps] := by
  have hinc : includeStrOfPkg lib.include_paths = some (includeFlags ps) := by
    rw [hps]; exact includeStrOfPkg_map_some ps
  have hloc : locateArtifact w (libraryFilePath env bd) =
      .systemPackage lib.libs lib.link_paths lib.include_paths := by
    simp [locateArtifact, he, hp]
  have hsingle : splitWhitespace (includeFlags ps) = [includeFlags ps] := by
    cases ps with
    | nil => exact absurd rfl hne
    | cons p ps' =>
      exact splitWhitespace_single _ (includeFlags_cons_ne_nil p ps')
        (includeFlags_non_ws _ hgood)
  refine ⟨hinc, ?_, ?_⟩
  · have hm : mainRun env w = finishRun env w
        ([.rerunIfChanged "build.rs"] ++ lib.libs.map Directive.linkLib
          ++ lib.link_paths.map Directive.linkSearch)
        (libraryFilePath env bd) (includeFlags ps) none := by
      simp [mainRun, hf, ht, hb, hloc, hinc]
    rw [hm]
    exact finishRun_cfg env w _ _ _ o none ho
  · simp [cfgOf, hsingle]

/-- Witness for the amended C5 at the two-path registry answer. -/
theorem pkg_include_args_merged_witness :
    includeStrOfPkg libTwoIncludes.include_paths = some (includeFlags ["/a", "/b"]) ∧
    (mainRun envLinux worldTwoIncludes).bindgen_cfg =
      some (cfgOf envLinux (includeFlags ["/a", "/b"])) ∧
    (cfgOf envLinux (includeFlags ["/a", "/b"])).clangArgs = [includeFlags ["/a", "/b"]] :=
  pkg_include_args_merged envLinux worldTwoIncludes "x86_64-unknown-linux-gnu" "build" "/out"
    libTwoIncludes ["/a", "/b"] rfl rfl rfl rfl rfl rfl rfl (by decide) (by decide)

/-- Claim C4: every successful generation run emits a declaration for every
allow-listed name and none for any name outside the allow-list — the
allow-list is both a floor and a ceiling on the emitted surface. -/
theorem allowlist_floor_and_ceiling (parsed : Except String (List String)) (out : List String)
    (h : generateBindings parsed allowlist_items = .ok out) :
    (∀ a ∈ allowlist_items, a ∈ out) ∧ (∀ s ∈ out, s ∈ allowlist_items) := by
  cases parsed with
  | error e => simp [generateBindings] at h
  | ok decls =>
    simp only [generateBindings] at h
    by_cases hall : allowlist_items.all (fun a => decls.contains a) = true
    · rw [if_pos hall] at h
      have hout : decls.filter (fun d => allowlist_items.contains d) = out := by
        exact (Except.ok.injEq _ _).mp h
      constructor
      · intro a ha
        have hmem : a ∈ decls := by
          have := List.all_eq_true.mp hall a ha
          simpa using this
        rw [← hout]
        refine List.mem_filter.mpr ⟨hmem, by simpa using ha⟩
      · intro s hs
        rw [← hout] at hs
        have := (List.mem_filter.mp hs).2
        simpa using this
    · rw [if_neg hall] at h
      cases h

/-- Witness for C4 on a header declaring exactly the allow-listed names. -/
theorem allowlist_floor_and_ceiling_witness :
    "ABGRToI420" ∈ allowlistSelf ∧ "kYvuV2020Constants" ∈ allowlistSelf :=
  ⟨(allowlist_floor_and_ceiling (.ok allowlist_items) allowlistSelf rfl).1
      "ABGRToI420" (by decide),
   (allowlist_floor_and_ceiling (.ok allowlist_items) allowlistSelf rfl).1
      "kYvuV2020Constants" (by decide)⟩
